import Mathlib

set_option maxRecDepth 40000

/-!
Verification of the betterbliss-auth newsletter anti-automation subsystem.

This file gives a shallow embedding, in Lean 4, of the security-relevant
functions of the repository:

* `app/newsletter/security.py` — challenge registry, token issuing and
  verification, proof-of-work validation, request-signature verification,
  fingerprint validation;
* `app/newsletter/crypto.py` — the error behaviour of payload decryption;
* `app/routes/newsletter.py` — the subscribe endpoint handler;
* `app/utils/rate_limiting.py` — the rate limiter's error behaviour.

Machine integers are `Nat` with explicit reduction modulo `2^32` where the
source computes on 32-bit words (inside SHA-256).  Python `datetime` values
are modelled as `Nat` timestamps; the in-memory dict `active_tokens` is an
association list with dict semantics (at most one binding per key).
Python functions that can raise are modelled as `Option`/`Except`-valued
functions, and the stateful ones return their new state explicitly.
-/

namespace BetterBliss

/-! ## SHA-256, executable, over byte lists

A byte is a `Nat < 256`; a word is a `Nat < 2^32`.  This mirrors
`hashlib.sha256(x).hexdigest()` for the byte strings the code hashes.
-/

def M32 : Nat := 4294967296

def rightRot32 (n x : Nat) : Nat := ((x >>> n) ||| (x <<< (32 - n))) % M32

def bigS0 (x : Nat) : Nat := (rightRot32 2 x) ^^^ (rightRot32 13 x) ^^^ (rightRot32 22 x)

def bigS1 (x : Nat) : Nat := (rightRot32 6 x) ^^^ (rightRot32 11 x) ^^^ (rightRot32 25 x)

def smallS0 (x : Nat) : Nat := (rightRot32 7 x) ^^^ (rightRot32 18 x) ^^^ (x >>> 3)

def smallS1 (x : Nat) : Nat := (rightRot32 17 x) ^^^ (rightRot32 19 x) ^^^ (x >>> 10)

def chf (x y z : Nat) : Nat := (x &&& y) ^^^ ((x ^^^ 4294967295) &&& z)

def majf (x y z : Nat) : Nat := (x &&& y) ^^^ (x &&& z) ^^^ (y &&& z)

def sha256K : List Nat :=
  [1116352408, 1899447441, 3049323471, 3921009573, 961987163,
   1508970993, 2453635748, 2870763221, 3624381080, 310598401,
   607225278, 1426881987, 1925078388, 2162078206, 2614888103,
   3248222580, 3835390401, 4022224774, 264347078, 604807628,
   770255983, 1249150122, 1555081692, 1996064986, 2554220882,
   2821834349, 2952996808, 3210313671, 3336571891, 3584528711,
   113926993, 338241895, 666307205, 773529912, 1294757372,
   1396182291, 1695183700, 1986661051, 2177026350, 2456956037,
   2730485921, 2820302411, 3259730800, 3345764771, 3516065817,
   3600352804, 4094571909, 275423344, 430227734, 506948616,
   659060556, 883997877, 958139571, 1322822218, 1537002063,
   1747873779, 1955562222, 2024104815, 2227730452, 2361852424,
   2428436474, 2756734187, 3204031479, 3329325298]

structure Hash8 where
  a : Nat
  b : Nat
  c : Nat
  d : Nat
  e : Nat
  f : Nat
  g : Nat
  h : Nat

def sha256H0 : Hash8 :=
  ⟨1779033703, 3144134277, 1013904242, 2773480762,
   1359893119, 2600822924, 528734635, 1541459225⟩

def msgSchedule (block : List Nat) : Array Nat :=
  (List.range 48).foldl
    (fun arr i =>
      arr.push ((smallS1 (arr.getD (i + 14) 0) + arr.getD (i + 9) 0 +
                 smallS0 (arr.getD (i + 1) 0) + arr.getD i 0) % M32))
    block.toArray

def sha256Round (st : Hash8) (wk : Nat × Nat) : Hash8 :=
  let t1 := (st.h + bigS1 st.e + chf st.e st.f st.g + wk.2 + wk.1) % M32
  let t2 := (bigS0 st.a + majf st.a st.b st.c) % M32
  ⟨(t1 + t2) % M32, st.a, st.b, st.c, (st.d + t1) % M32, st.e, st.f, st.g⟩

def sha256Compress (hs : Hash8) (block : List Nat) : Hash8 :=
  let w := msgSchedule block
  let fin := (w.toList.zip sha256K).foldl sha256Round hs
  ⟨(hs.a + fin.a) % M32, (hs.b + fin.b) % M32, (hs.c + fin.c) % M32,
   (hs.d + fin.d) % M32, (hs.e + fin.e) % M32, (hs.f + fin.f) % M32,
   (hs.g + fin.g) % M32, (hs.h + fin.h) % M32⟩

def wordsOfBytes : List Nat → List Nat
  | a :: b :: c :: d :: rest => (((a * 256 + b) * 256 + c) * 256 + d) :: wordsOfBytes rest
  | _ => []

def beBytes : Nat → Nat → List Nat
  | 0, _ => []
  | n + 1, v => (v >>> (8 * n)) % 256 :: beBytes n v

def sha256Pad (msg : List Nat) : List Nat :=
  msg ++ [128] ++ List.replicate ((119 - msg.length % 64) % 64) 0 ++
    beBytes 8 (8 * msg.length)

def sha256Blocks (hs : Hash8) : List Nat → Hash8
  | w0 :: w1 :: w2 :: w3 :: w4 :: w5 :: w6 :: w7 :: w8 :: w9 :: w10 :: w11 ::
    w12 :: w13 :: w14 :: w15 :: rest =>
      sha256Blocks
        (sha256Compress hs [w0, w1, w2, w3, w4, w5, w6, w7, w8, w9, w10, w11,
                            w12, w13, w14, w15]) rest
  | _ => hs

def hexDigit (n : Nat) : Char :=
  Char.ofNat (if n < 10 then 48 + n else 87 + n)

def natHex : Nat → Nat → List Char
  | 0, _ => []
  | n + 1, v => hexDigit ((v >>> (4 * n)) % 16) :: natHex n v

def sha256hexBytes (msg : List Nat) : String :=
  let d := sha256Blocks sha256H0 (wordsOfBytes (sha256Pad msg))
  ⟨natHex 8 d.a ++ natHex 8 d.b ++ natHex 8 d.c ++ natHex 8 d.d ++
   natHex 8 d.e ++ natHex 8 d.f ++ natHex 8 d.g ++ natHex 8 d.h⟩

/-- UTF-8 encoding of one character, as Python's `str.encode()` produces. -/
def utf8Char (c : Char) : List Nat :=
  let n := c.toNat
  if n < 128 then [n]
  else if n < 2048 then [192 + n / 64, 128 + n % 64]
  else if n < 65536 then [224 + n / 4096, 128 + n / 64 % 64, 128 + n % 64]
  else [240 + n / 262144, 128 + n / 4096 % 64, 128 + n / 64 % 64, 128 + n % 64]

def strBytes (s : String) : List Nat :=
  s.data.foldr (fun c acc => utf8Char c ++ acc) []

/-- Model of Python `hashlib.sha256(s.encode()).hexdigest()`. -/
def sha256hexStr (s : String) : String :=
  sha256hexBytes (strBytes s)

/-! ## Python `int()` parsing

`validate_proof_of_work` runs `int(solution)` and `validate_fingerprint` runs
`int(fingerprint, 16)`.  We model Python's parser for ASCII inputs: optional
surrounding whitespace, an optional sign, for base 16 an optional `0x`/`0X`
prefix (an underscore may follow the prefix directly), and digits with single
underscores allowed between digits.
-/

def isPyWs (c : Char) : Bool :=
  c == ' ' || c == '\t' || c == '\n' || c == '\r' ||
    c == '\x0b' || c == '\x0c' 

def stripWs (cs : List Char) : List Char :=
  ((cs.dropWhile isPyWs).reverse.dropWhile isPyWs).reverse

def digVal10 (c : Char) : Option Nat :=
  if c.isDigit then some (c.toNat - 48) else none

def digVal16 (c : Char) : Option Nat :=
  if c.isDigit then some (c.toNat - 48)
  else if 'a' ≤ c && c ≤ 'f' then some (c.toNat - 87)
  else if 'A' ≤ c && c ≤ 'F' then some (c.toNat - 55)
  else none

def digitsCore (dv : Char → Option Nat) (base : Nat) :
    List Char → Nat → Bool → Option Nat
  | [], acc, wasU => if wasU then none else some acc
  | c :: rest, acc, wasU =>
      if c == '_' then
        if wasU then none else digitsCore dv base rest acc true
      else
        match dv c with
        | some v => digitsCore dv base rest (acc * base + v) false
        | none => none

def entryDigits (dv : Char → Option Nat) (base : Nat) : List Char → Option Nat
  | c :: rest =>
      match dv c with
      | some v => digitsCore dv base rest v false
      | none => none
  | [] => none

def hexBody : List Char → Option Nat
  | c0 :: c1 :: rest =>
      if c0 == '0' && (c1 == 'x' || c1 == 'X') then
        match rest with
        | [] => none
        | r2 => digitsCore digVal16 16 r2 0 false
      else entryDigits digVal16 16 (c0 :: c1 :: rest)
  | cs => entryDigits digVal16 16 cs

def signedBody (body : List Char → Option Nat) : List Char → Option Int
  | [] => (body []).map Int.ofNat
  | c :: rest =>
      if c == '+' then (body rest).map Int.ofNat
      else if c == '-' then (body rest).map (fun n => -(Int.ofNat n : Int))
      else (body (c :: rest)).map Int.ofNat

/-- Model of Python `int(s)` (base 10) on ASCII input. -/
def pyInt10 (s : String) : Option Int :=
  signedBody (entryDigits digVal10 10) (stripWs s.data)

/-- Model of Python `int(s, 16)` on ASCII input. -/
def pyInt16 (s : String) : Option Int :=
  signedBody hexBody (stripWs s.data)

/-! ## The challenge registry of `app/newsletter/security.py`

`active_tokens` is a module-level dict from token to a per-challenge record.
We model it as an association list with dict semantics and pass it (plus the
current time where the source calls `datetime.now()`) explicitly.
-/

structure Challenge where
  data : String
  target : String
  difficulty : Nat
  deriving Repr, DecidableEq

structure TokenData where
  fingerprint : String
  client_ip : String
  created_at : Nat
  expires_at : Nat
  challenge : Challenge
  used : Bool
  deriving Repr, DecidableEq

abbrev Registry : Type := List (String × TokenData)

def lookupTok : Registry → String → Option TokenData
  | [], _ => none
  | (k, v) :: rest, tok => if k = tok then some v else lookupTok rest tok

/-- Model of `del active_tokens[token]` (a dict holds one binding per key). -/
def eraseTok : Registry → String → Registry
  | [], _ => []
  | (k, v) :: rest, tok =>
      if k = tok then eraseTok rest tok else (k, v) :: eraseTok rest tok

/-- Model of `active_tokens[token] = entry`. -/
def setEntry : Registry → String → TokenData → Registry
  | [], tok, entry => [(tok, entry)]
  | (k, v) :: rest, tok, entry =>
      if k = tok then (tok, entry) :: rest else (k, v) :: setEntry rest tok entry

/-- Model of `token_data["used"] = True` through the registry. -/
def setUsed : Registry → String → Registry
  | [], _ => []
  | (k, v) :: rest, tok =>
      if k = tok then (k, { v with used := true }) :: setUsed rest tok
      else (k, v) :: setUsed rest tok

/-- Model of `generate_secure_token` (security.py lines 16-42).  The random
`token` and the current time are parameters; the result pairs the response
triple (token, challenge, expiry) with the updated registry. -/
def generate_secure_token (fingerprint client_ip token : String) (now : Nat)
    (st : Registry) : (String × Challenge × Nat) × Registry :=
  let challenge_data := token ++ ":" ++ fingerprint ++ ":" ++ toString now
  let challenge : Challenge := ⟨challenge_data, "0000", 4⟩
  let expires_at := now + 600
  let entry : TokenData :=
    ⟨fingerprint, client_ip, now, expires_at, challenge, false⟩
  ((token, challenge, expires_at), setEntry st token entry)

/-- Model of `verify_security_token` (security.py lines 44-67): result plus
the registry after the call (the expired branch deletes the entry). -/
def verify_security_token (token fingerprint : String) (now : Nat)
    (st : Registry) : Bool × Registry :=
  match lookupTok st token with
  | none => (false, st)
  | some td =>
      if now > td.expires_at then (false, eraseTok st token)
      else if td.fingerprint ≠ fingerprint then (false, st)
      else if td.used then (false, st)
      else (true, st)

def charsIsPrefixOf : List Char → List Char → Bool
  | [], _ => true
  | _ :: _, [] => false
  | a :: as, b :: bs => a == b && charsIsPrefixOf as bs

/-- Model of Python `s.startswith(p)`. -/
def strStartsWith (s p : String) : Bool :=
  charsIsPrefixOf p.data s.data

/-- Model of `validate_proof_of_work` (security.py lines 69-93): result plus
the registry after the call (the success branch sets `used`). -/
def validate_proof_of_work (solution token : String) (st : Registry) :
    Bool × Registry :=
  match lookupTok st token with
  | none => (false, st)
  | some td =>
      match pyInt10 solution with
      | none => (false, st)
      | some nonce =>
          let attempt := td.challenge.data ++ toString nonce
          let hash_result := sha256hexStr attempt
          if strStartsWith hash_result td.challenge.target then (true, setUsed st token)
          else (false, st)

/-- Model of `validate_fingerprint` (security.py lines 113-123). -/
def validate_fingerprint (fingerprint : String) : Bool :=
  if fingerprint = "" || fingerprint.length ≠ 64 then false
  else (pyInt16 fingerprint).isSome

/-! ## `json.dumps(..., sort_keys=True)` and `verify_request_signature`

`verify_request_signature` serializes the encrypted payload dict with
`json.dumps(encrypted_payload, sort_keys=True)`.  A payload value is either a
string (the base64 fields the client sends) or a value `json.dumps` rejects
with `TypeError` (modelled by `unserializable`); the dict is an association
list with distinct keys.  The serialization mirrors CPython's defaults:
`ensure_ascii=True`, separators `", "` and `": "`, keys sorted by code point.
-/

inductive PyVal where
  | str (s : String)
  | unserializable
  deriving Repr, DecidableEq

def jsonEscapeChar (c : Char) : List Char :=
  if c == '"' then ['\\', '"']
  else if c == '\\' then ['\\', '\\']
  else if c == '\n' then ['\\', 'n']
  else if c == '\r' then ['\\', 'r']
  else if c == '\t' then ['\\', 't']
  else if c.toNat == 8 then ['\\', 'b']
  else if c.toNat == 12 then ['\\', 'f']
  else if c.toNat < 32 then '\\' :: 'u' :: natHex 4 c.toNat
  else if c.toNat < 127 then [c]
  else if c.toNat < 65536 then '\\' :: 'u' :: natHex 4 c.toNat
  else
    '\\' :: 'u' :: natHex 4 (55296 + (c.toNat - 65536) / 1024) ++
      ('\\' :: 'u' :: natHex 4 (56320 + (c.toNat - 65536) % 1024))

def jsonQuote (s : String) : String :=
  ⟨'"' :: s.data.foldr (fun c acc => jsonEscapeChar c ++ acc) ['"']⟩

def charsLt : List Char → List Char → Bool
  | [], [] => false
  | [], _ :: _ => true
  | _ :: _, [] => false
  | a :: as, b :: bs =>
      if a.toNat < b.toNat then true
      else if b.toNat < a.toNat then false
      else charsLt as bs

/-- Python string comparison: lexicographic on code points. -/
def pyStrLt (s t : String) : Bool :=
  charsLt s.data t.data

def insertSorted (p : String × PyVal) :
    List (String × PyVal) → List (String × PyVal)
  | [] => [p]
  | q :: rest =>
      if pyStrLt p.1 q.1 then p :: q :: rest else q :: insertSorted p rest

def sortByKey (l : List (String × PyVal)) : List (String × PyVal) :=
  l.foldr insertSorted []

def dumpsVal : PyVal → Option String
  | .str s => some (jsonQuote s)
  | .unserializable => none

def dumpsEntries : List (String × PyVal) → Option (List String)
  | [] => some []
  | (k, v) :: rest =>
      match dumpsVal v, dumpsEntries rest with
      | some sv, some tail => some ((jsonQuote k ++ ": " ++ sv) :: tail)
      | _, _ => none

def joinComma : List String → String
  | [] => ""
  | [x] => x
  | x :: rest => x ++ ", " ++ joinComma rest

/-- Model of `json.dumps(d, sort_keys=True)`; `none` models a raised
`TypeError` for an unserializable value. -/
def pyJsonDumps (d : List (String × PyVal)) : Option String :=
  (dumpsEntries (sortByKey d)).map
    (fun parts => "\x7b" ++ joinComma parts ++ "\x7d")

/-- Model of `verify_request_signature` (security.py lines 95-111).  The
current Unix time in seconds is the parameter `now`; the source appends
`int(time.time() // 60)`.  A `json.dumps` failure lands in the `except`
branch, which returns `False`. -/
def verify_request_signature (encrypted_payload : List (String × PyVal))
    (signature token : String) (now : Nat) : Bool :=
  match pyJsonDumps encrypted_payload with
  | none => false
  | some s =>
      let message := s ++ token ++ toString (now / 60)
      let expected_signature := sha256hexStr message
      signature == expected_signature

/-! ## Error behaviour of `SecureCrypto.decrypt_payload` (crypto.py 63-98)

The body is one `try` block: three base64 decodes, client-key reconstruction,
ECDH + HKDF, AEAD decryption, then `json.loads`.  Any exception `e` from any
of those steps is caught by the single `except Exception` handler, which
raises `ValueError(f"Decryption failed: {str(e)}")`.  We model each fallible
step's outcome as a parameter (the crypto math itself is outside the shallow
embedding) and keep the control flow and error construction exact. -/

structure DecryptEnv where
  b64Ciphertext : Except String Unit
  b64Nonce : Except String Unit
  b64ClientKey : Except String Unit
  clientKeyValid : Except String Unit
  aeadDecrypt : Except String String
  jsonParse : String → Except String (List (String × PyVal))

/-- The one error type `decrypt_payload` can raise: `ValueError` carrying the
message `"Decryption failed: " ++ str(e)`.  There is no other constructor —
in particular no separate malformed-payload error. -/
inductive CryptoErr where
  | valueError (msg : String)
  deriving Repr, DecidableEq

def decrypt_payload (env : DecryptEnv) :
    Except CryptoErr (List (String × PyVal)) :=
  match env.b64Ciphertext with
  | .error e => .error (.valueError ("Decryption failed: " ++ e))
  | .ok _ =>
    match env.b64Nonce with
    | .error e => .error (.valueError ("Decryption failed: " ++ e))
    | .ok _ =>
      match env.b64ClientKey with
      | .error e => .error (.valueError ("Decryption failed: " ++ e))
      | .ok _ =>
        match env.clientKeyValid with
        | .error e => .error (.valueError ("Decryption failed: " ++ e))
        | .ok _ =>
          match env.aeadDecrypt with
          | .error e => .error (.valueError ("Decryption failed: " ++ e))
          | .ok plaintext =>
            match env.jsonParse plaintext with
            | .error e => .error (.valueError ("Decryption failed: " ++ e))
            | .ok decrypted_data => .ok decrypted_data

/-! ## The subscribe route handler (app/routes/newsletter.py 22-109)

`subscribe_newsletter` takes a pydantic body (email, name, source), the
request object, and background tasks.  It declares no `Header(...)`
parameters and never reads `req.headers`; its failures raise
`HTTPException(500)`.  Database calls are modelled by their outcomes.  A
normal return is served by FastAPI with status 200. -/

structure SubscribeReqModel where
  headers : List (String × String)
  email : String
  name : Option String
  source : String

structure SubscribeDb where
  fetchExisting : Except String (Option (String × String))
  reactivate : Except String Unit
  insertNew : Except String Unit

inductive SubscribeResult where
  | success (message : String)
  | httpError (status : Nat) (detail : String)
  deriving Repr, DecidableEq

def subscribe_newsletter (_req : SubscribeReqModel) (db : SubscribeDb) :
    SubscribeResult :=
  match db.fetchExisting with
  | .error _ => .httpError 500 "Subscription failed. Please try again later."
  | .ok (some (_id, status)) =>
      if status = "active" then
        .success "You\x27re already subscribed! Welcome back to our wellness community."
      else
        match db.reactivate with
        | .error _ => .httpError 500 "Subscription failed. Please try again later."
        | .ok _ =>
            .success "Welcome back! Your subscription has been reactivated. Check your email for a welcome message."
  | .ok none =>
      match db.insertNew with
      | .error _ => .httpError 500 "Subscription failed. Please try again later."
      | .ok _ =>
          .success "Successfully subscribed! Check your email for a welcome message."

/-! ## The rate limiter (app/utils/rate_limiting.py 8-52)

`check_rate_limit` runs three database operations inside a `try`; the
`except` branch logs and returns `True`.  The Python guard is
`if current_count and current_count >= max_requests`, i.e. the count must be
truthy (non-zero) and at least the limit. -/

structure RateLimitDb where
  cleanupRes : Except String Unit
  countRes : Except String Int
  insertRes : Except String Unit

def check_rate_limit (db : RateLimitDb) (max_requests : Int) : Bool :=
  match db.cleanupRes with
  | .error _ => true
  | .ok _ =>
    match db.countRes with
    | .error _ => true
    | .ok current_count =>
        if current_count ≠ 0 ∧ current_count ≥ max_requests then false
        else
          match db.insertRes with
          | .error _ => true
          | .ok _ => true

/-! ## The `/secure-token` endpoint -/

inductive TokenEndpointResult where
  | issued (token : String) (challenge : Challenge) (expires_at : Nat)
  | badRequest
  deriving Repr, DecidableEq

/-- Modelled from the spec: no route file under `src/` wires
`generate_secure_token` to HTTP (the `POST /secure-token` handler is missing
from the sources; `security.py` only defines the functions).  Spec §4.3 and
§6: the endpoint answers 400 when the fingerprint fails format validation and
otherwise issues a challenge via `generate_secure_token`.  Format validation
is the repository's own `validate_fingerprint`.  The rate-limit branch (429)
is independent of the fingerprint check and omitted here. -/
def secure_token_endpoint (fingerprint client_ip token : String) (now : Nat)
    (st : Registry) : TokenEndpointResult × Registry :=
  if validate_fingerprint fingerprint then
    let r := generate_secure_token fingerprint client_ip token now st
    (.issued r.1.1 r.1.2.1 r.1.2.2, r.2)
  else (.badRequest, st)

/-- Stated from the spec words of claim C7: a hexadecimal digit. -/
def specHexDigit (c : Char) : Bool :=
  c.isDigit || ('a' ≤ c && c ≤ 'f') || ('A' ≤ c && c ≤ 'F')

/-- Stated from the spec words of claim C7: exactly 64 characters, all valid
hexadecimal digits. -/
def spec_fingerprint_ok (s : String) : Bool :=
  s.length == 64 && s.data.all specHexDigit

/-! ## Concrete fixtures used by witnesses and counterexamples -/

def fpA : String := ⟨List.replicate 64 'a'⟩

def fpPlus : String := ⟨'+' :: List.replicate 63 'a'⟩

def fpShort : String := ⟨List.replicate 63 'a'⟩

/-- The registry after one `generate_secure_token` call at time 5. -/
def powSt0 : Registry := (generate_secure_token fpA "1.2.3.4" "t" 5 []).2

def powTd0 : TokenData :=
  ⟨fpA, "1.2.3.4", 5, 605, ⟨"t:" ++ fpA ++ ":5", "0000", 4⟩, false⟩

/-- A winning proof-of-work nonce for `powTd0`'s puzzle: the SHA-256 hex
digest of its challenge data followed by `35737` starts with `0000`. -/
def powSol : String := "35737"

/-- The HTTP status FastAPI serves for a handler outcome: 200 for a normal
return, the carried status for a raised `HTTPException`. -/
def responseStatus : SubscribeResult → Nat
  | .success _ => 200
  | .httpError st _ => st

def dbEmptyOk : SubscribeDb := ⟨.ok none, .ok (), .ok ()⟩

def dbFetchDown : SubscribeDb := ⟨.error "connection refused", .ok (), .ok ()⟩

def payloadA : List (String × PyVal) :=
  [("ciphertext", .str "Zm9v"), ("nonce", .str "YmFy"),
   ("clientPublicKey", .str "YmF6")]

/-- Same as `payloadA` except one byte of the ciphertext field. -/
def payloadB : List (String × PyVal) :=
  [("ciphertext", .str "Zm9w"), ("nonce", .str "YmFy"),
   ("clientPublicKey", .str "YmF6")]

def payloadBad : List (String × PyVal) := [("ciphertext", .unserializable)]

/-- The keys-sorted JSON serialization of `payloadA`. -/
def dumpA : String :=
  "\x7b\"ciphertext\": \"Zm9v\", \"clientPublicKey\": \"YmF6\", \"nonce\": \"YmFy\"\x7d"

/-- The keys-sorted JSON serialization of `payloadB`. -/
def dumpB : String :=
  "\x7b\"ciphertext\": \"Zm9w\", \"clientPublicKey\": \"YmF6\", \"nonce\": \"YmFy\"\x7d"

/-- Decryption environment whose AEAD step fails with message `boom`. -/
def envAeadBoom : DecryptEnv :=
  ⟨.ok (), .ok (), .ok (), .ok (), .error "boom", fun _ => .ok []⟩

/-- Decryption environment that decrypts fine but whose plaintext fails JSON
parsing with message `boom`. -/
def envJsonBoom : DecryptEnv :=
  ⟨.ok (), .ok (), .ok (), .ok (), .ok "plain", fun _ => .error "boom"⟩

def rlDbDown : RateLimitDb := ⟨.error "connection refused", .ok 0, .ok ()⟩

def rlDbDeny : RateLimitDb := ⟨.ok (), .ok 5, .ok ()⟩

/-! ## Sanity checks of the embedding on concrete values -/

example : sha256hexStr "abc" =
    "ba7816bf8f01cfea414140de5dae2223b00361a396177a9cb410ff61f20015ad" := by
  rfl

example : pyJsonDumps [("b", .str "2"), ("a", .str "1")] =
    some "\x7b\"a\": \"1\", \"b\": \"2\"\x7d" := by rfl

example : pyInt10 " 87440 " = some 87440 := by rfl

example : pyInt10 "1_000" = some 1000 := by rfl

example : pyInt10 "12a" = none := by rfl

example : pyInt16 "0x_ff" = some 255 := by rfl

example : pyInt16 "_f" = none := by rfl

example : pyInt16 fpPlus = some (0xaaaaaaaaaaaaaaaaaaaaaaaaaaaaaaaaaaaaaaaaaaaaaaaaaaaaaaaaaaaaaaa : Int) := by
  rfl

example : sha256hexStr "d:87440" =
    "00006587119f6a3a110fe072f36fc0b2bc44051dedbcbafb4f0725cab2e1cf2b" := by rfl

example : powSt0 = [("t", powTd0)] := by rfl

example :
    strStartsWith (sha256hexStr (powTd0.challenge.data ++ "35737")) "0000" = true := by
  rfl

/-! # Helper lemmas about the registry operations -/

theorem lookupTok_eraseTok (st : Registry) (tok t : String) :
    lookupTok (eraseTok st tok) t = if t = tok then none else lookupTok st t := by
  induction st with
  | nil => simp [eraseTok, lookupTok]
  | cons hd tl ih =>
      obtain ⟨k, v⟩ := hd
      by_cases hk : k = tok
      · subst hk
        by_cases ht : t = k
        · subst ht; simp [eraseTok, lookupTok, ih]
        · have hkt : ¬ k = t := fun h => ht h.symm
          simp [eraseTok, lookupTok, ih, ht, hkt]
      · by_cases ht : t = tok
        · subst ht
          simp [eraseTok, lookupTok, ih, hk]
        · simp [eraseTok, lookupTok, ih, hk, ht]

theorem lookupTok_setUsed (st : Registry) (tok t : String) :
    lookupTok (setUsed st tok) t =
      if t = tok then (lookupTok st t).map (fun td => { td with used := true })
      else lookupTok st t := by
  induction st with
  | nil => simp [setUsed, lookupTok]
  | cons hd tl ih =>
      obtain ⟨k, v⟩ := hd
      by_cases hk : k = tok
      · subst hk
        by_cases ht : t = k
        · subst ht; simp [setUsed, lookupTok, ih]
        · have hkt : ¬ k = t := fun h => ht h.symm
          simp [setUsed, lookupTok, ih, ht, hkt]
      · by_cases ht : t = tok
        · subst ht
          simp [setUsed, lookupTok, ih, hk]
        · simp [setUsed, lookupTok, ih, hk, ht]

/-! # Claim theorems -/

/-- C1, counterexample.  The claim says a later `validate_proof_of_work` call
with an already-consumed token returns false; in fact the function never
consults the `used` flag, so replaying the same correct solution on the same
token succeeds a second time. -/
theorem C1_pow_replay_counterexample :
    (validate_proof_of_work powSol "t" powSt0).1 = true ∧
    (validate_proof_of_work powSol "t"
        (validate_proof_of_work powSol "t" powSt0).2).1 = true :=
  ⟨rfl, rfl⟩

/-- C1, amended.  A successful `validate_proof_of_work` marks the challenge
used, and from then on `verify_security_token` returns false for that token
for every fingerprint and every time; `validate_proof_of_work` itself does
not consult the `used` flag, so only the `verify_security_token` gate blocks
the replay. -/
theorem C1_pow_success_consumes_and_blocks_verify
    (st : Registry) (sol tok : String)
    (h : (validate_proof_of_work sol tok st).1 = true) :
    (∀ td, lookupTok (validate_proof_of_work sol tok st).2 tok = some td →
        td.used = true) ∧
    ∀ fp now,
      (verify_security_token tok fp now
          (validate_proof_of_work sol tok st).2).1 = false := by
  cases hl : lookupTok st tok with
  | none => simp [validate_proof_of_work, hl] at h
  | some td =>
    cases hp : pyInt10 sol with
    | none => simp [validate_proof_of_work, hl, hp] at h
    | some n =>
      by_cases hs :
          strStartsWith (sha256hexStr (td.challenge.data ++ toString n))
            td.challenge.target = true
      · have hval : validate_proof_of_work sol tok st = (true, setUsed st tok) := by
          simp [validate_proof_of_work, hl, hp, hs]
        have hlu : lookupTok (setUsed st tok) tok =
            some { td with used := true } := by
          rw [lookupTok_setUsed]
          simp [hl]
        rw [hval]
        constructor
        · intro td' h'
          rw [hlu] at h'
          cases h'
          rfl
        · intro fp now
          simp only [verify_security_token, hlu]
          split
          · rfl
          · split
            · rfl
            · simp
      · simp [validate_proof_of_work, hl, hp, hs] at h

/-- C1, witness for the amended theorem at the concrete registry `powSt0`
and its winning nonce. -/
theorem C1_pow_success_consumes_and_blocks_verify_witness :
    (verify_security_token "t" fpA 10
        (validate_proof_of_work powSol "t" powSt0).2).1 = false :=
  (C1_pow_success_consumes_and_blocks_verify powSt0 powSol "t" (by rfl)).2 fpA 10

/-- C2, counterexample.  At time 1000 the stored challenge is past its
`expires_at` of 605, yet `validate_proof_of_work` accepts the correct
solution: the function performs no expiry check of its own. -/
theorem C2_pow_ignores_expiry_counterexample :
    lookupTok powSt0 "t" = some powTd0 ∧ 1000 > powTd0.expires_at ∧
    (validate_proof_of_work powSol "t" powSt0).1 = true :=
  ⟨rfl, by decide, rfl⟩

/-- C2, amended.  Expiry is enforced by `verify_security_token`: on a stored
challenge past `expires_at` it returns false and evicts the entry, after
which `validate_proof_of_work` fails for every solution because the token is
absent.  `validate_proof_of_work` alone accepts a correct solution for a
still-stored expired challenge. -/
theorem C2_expired_verify_evicts_then_pow_fails
    (st : Registry) (tok fp : String) (now : Nat) (td : TokenData)
    (hl : lookupTok st tok = some td) (hex : now > td.expires_at) :
    (verify_security_token tok fp now st).1 = false ∧
    (verify_security_token tok fp now st).2 = eraseTok st tok ∧
    ∀ sol, (validate_proof_of_work sol tok
        (verify_security_token tok fp now st).2).1 = false := by
  have hv : verify_security_token tok fp now st = (false, eraseTok st tok) := by
    simp [verify_security_token, hl, hex]
  refine ⟨by rw [hv], by rw [hv], ?_⟩
  intro sol
  rw [hv]
  simp [validate_proof_of_work, lookupTok_eraseTok]

/-- C2, witness for the amended theorem at the concrete expired state. -/
theorem C2_expired_verify_evicts_then_pow_fails_witness :
    (verify_security_token "t" fpA 1000 powSt0).1 = false ∧
    (validate_proof_of_work powSol "t"
        (verify_security_token "t" fpA 1000 powSt0).2).1 = false := by
  have h := C2_expired_verify_evicts_then_pow_fails powSt0 "t" fpA 1000 powTd0
    (by rfl) (by decide)
  exact ⟨h.1, h.2.2 powSol⟩

/-- C3, counterexample.  A request carrying none of the four custom security
headers is accepted by the `subscribe_newsletter` handler (FastAPI serves the
normal return as 200), not rejected with status 400. -/
theorem C3_subscribe_without_headers_counterexample :
    subscribe_newsletter ⟨[], "user@example.com", none, "unknown"⟩ dbEmptyOk =
      .success "Successfully subscribed! Check your email for a welcome message." :=
  rfl

/-- C3, amended.  The `POST /newsletter/subscribe` handler in
`app/routes/newsletter.py` declares no header parameters: its outcome is
independent of the request headers, and its only statuses are 200 (normal
return) and 500 (the one `HTTPException` it raises); it never answers 400
for missing headers. -/
theorem C3_subscribe_headers_irrelevant
    (h h' : List (String × String)) (e : String) (n : Option String)
    (src : String) (db : SubscribeDb) :
    subscribe_newsletter ⟨h, e, n, src⟩ db =
      subscribe_newsletter ⟨h', e, n, src⟩ db ∧
    (responseStatus (subscribe_newsletter ⟨h, e, n, src⟩ db) = 200 ∨
     responseStatus (subscribe_newsletter ⟨h, e, n, src⟩ db) = 500) := by
  constructor
  · rfl
  · cases hf : db.fetchExisting with
    | error e0 => simp [subscribe_newsletter, hf, responseStatus]
    | ok o =>
      cases o with
      | none =>
          cases hi : db.insertNew <;>
            simp [subscribe_newsletter, hf, hi, responseStatus]
      | some pr =>
          obtain ⟨id0, st0⟩ := pr
          by_cases hs : st0 = "active"
          · simp [subscribe_newsletter, hf, hs, responseStatus]
          · cases hr : db.reactivate <;>
              simp [subscribe_newsletter, hf, hs, hr, responseStatus]

/-- C4.  `verify_request_signature` returns true iff the signature equals the
SHA-256 hex digest of the keys-sorted JSON serialization of the payload
concatenated with the token and the current minute index `now / 60`; when the
serialization raises (unserializable payload) it returns false instead of
throwing; and a payload whose serialization differs from the one the
signature was computed over is rejected whenever the two digests differ. -/
theorem C4_verify_request_signature_correct
    (p : List (String × PyVal)) (sig tok : String) (now : Nat) :
    (verify_request_signature p sig tok now = true ↔
      ∃ s, pyJsonDumps p = some s ∧
        sig = sha256hexStr (s ++ tok ++ toString (now / 60))) ∧
    (pyJsonDumps p = none → verify_request_signature p sig tok now = false) ∧
    (∀ (p' : List (String × PyVal)) (s s' : String),
      pyJsonDumps p = some s → pyJsonDumps p' = some s' →
      sha256hexStr (s' ++ tok ++ toString (now / 60)) ≠
        sha256hexStr (s ++ tok ++ toString (now / 60)) →
      verify_request_signature p'
        (sha256hexStr (s ++ tok ++ toString (now / 60))) tok now = false) := by
  refine ⟨?_, ?_, ?_⟩
  · cases hd : pyJsonDumps p with
    | none => simp [verify_request_signature, hd]
    | some s0 => simp [verify_request_signature, hd]
  · intro hd
    simp [verify_request_signature, hd]
  · intro p' s s' hd hd' hne
    cases hb : (sha256hexStr (s ++ tok ++ toString (now / 60)) ==
        sha256hexStr (s' ++ tok ++ toString (now / 60))) with
    | false => simp [verify_request_signature, hd', hb]
    | true => exact absurd (eq_of_beq hb).symm hne

/-- C4, witness: an unserializable payload is rejected without throwing, and
`payloadB` (one byte away from `payloadA`) is rejected under `payloadA`'s
correct signature. -/
theorem C4_verify_request_signature_correct_witness :
    verify_request_signature payloadBad "x" "t" 120 = false ∧
    verify_request_signature payloadB
      (sha256hexStr (dumpA ++ "t" ++ "2")) "t" 120 = false :=
  ⟨(C4_verify_request_signature_correct payloadBad "x" "t" 120).2.1 (by rfl),
   (C4_verify_request_signature_correct payloadA "x" "t" 120).2.2 payloadB
     dumpA dumpB (by rfl) (by rfl) (by decide)⟩

/-- C5.  For a token present in the registry, `validate_proof_of_work`
succeeds iff the solution parses as an integer nonce whose appended SHA-256
hex digest starts with the challenge's target; a parse failure returns false
(the embedding is a total function: nothing is raised to the caller). -/
theorem C5_validate_proof_of_work_correct
    (st : Registry) (tok sol : String) (td : TokenData)
    (hl : lookupTok st tok = some td) :
    ((validate_proof_of_work sol tok st).1 = true ↔
      ∃ n, pyInt10 sol = some n ∧
        strStartsWith (sha256hexStr (td.challenge.data ++ toString n))
          td.challenge.target = true) ∧
    (pyInt10 sol = none → (validate_proof_of_work sol tok st).1 = false) := by
  constructor
  · cases hp : pyInt10 sol with
    | none => simp [validate_proof_of_work, hl, hp]
    | some n =>
      by_cases hs :
          strStartsWith (sha256hexStr (td.challenge.data ++ toString n))
            td.challenge.target = true <;>
        simp [validate_proof_of_work, hl, hp, hs]
  · intro hp
    simp [validate_proof_of_work, hl, hp]

/-- C5, witness: on the concrete registry `powSt0` the winning nonce 35737
is accepted and a non-numeric solution is rejected. -/
theorem C5_validate_proof_of_work_correct_witness :
    (validate_proof_of_work powSol "t" powSt0).1 = true ∧
    (validate_proof_of_work "zzz" "t" powSt0).1 = false :=
  ⟨(C5_validate_proof_of_work_correct powSt0 "t" powSol powTd0 (by rfl)).1.mpr
      ⟨35737, by rfl, by rfl⟩,
   (C5_validate_proof_of_work_correct powSt0 "t" "zzz" powTd0 (by rfl)).2
      (by rfl)⟩

/-- C6, counterexample.  A JSON-parse failure of the decrypted plaintext
produces exactly the same error value as an AEAD authentication failure with
the same underlying message: there is no distinct MalformedPayload error. -/
theorem C6_json_failure_not_distinct_counterexample :
    decrypt_payload envJsonBoom = decrypt_payload envAeadBoom ∧
    decrypt_payload envJsonBoom =
      .error (.valueError "Decryption failed: boom") :=
  ⟨rfl, rfl⟩

/-- C6, amended.  Every failure inside `decrypt_payload` — base64 decoding,
client-key reconstruction, AEAD decryption, or JSON parsing of the decrypted
plaintext — is raised as the single `ValueError` whose message is
`Decryption failed: ` followed by the underlying exception's message; a
JSON-parse failure is wrapped identically, not reported as a distinct
MalformedPayload error (and the embedded cause string is the only
differentiation the error carries). -/
theorem C6_decrypt_single_error_type (env : DecryptEnv) :
    ((∃ d, decrypt_payload env = .ok d) ∨
      ∃ m, decrypt_payload env = .error (.valueError m)) ∧
    (∀ pl m, env.b64Ciphertext = .ok () → env.b64Nonce = .ok () →
      env.b64ClientKey = .ok () → env.clientKeyValid = .ok () →
      env.aeadDecrypt = .ok pl → env.jsonParse pl = .error m →
      decrypt_payload env =
        .error (.valueError ("Decryption failed: " ++ m))) := by
  obtain ⟨c1, c2, c3, c4, c5, c6⟩ := env
  constructor
  · cases c1 with
    | error e => exact Or.inr ⟨_, rfl⟩
    | ok u1 =>
      cases c2 with
      | error e => exact Or.inr ⟨_, rfl⟩
      | ok u2 =>
        cases c3 with
        | error e => exact Or.inr ⟨_, rfl⟩
        | ok u3 =>
          cases c4 with
          | error e => exact Or.inr ⟨_, rfl⟩
          | ok u4 =>
            cases c5 with
            | error e => exact Or.inr ⟨_, rfl⟩
            | ok pl =>
              cases h6 : c6 pl with
              | error m =>
                  exact Or.inr ⟨"Decryption failed: " ++ m,
                    by simp [decrypt_payload, h6]⟩
              | ok d => exact Or.inl ⟨d, by simp [decrypt_payload, h6]⟩
  · intro pl m h1 h2 h3 h4 h5 h6
    cases h1
    cases h2
    cases h3
    cases h4
    cases h5
    have h6' : c6 pl = Except.error m := h6
    simp [decrypt_payload, h6']

/-- C6, witness for the amended theorem: the concrete environment whose JSON
step fails with message `boom`. -/
theorem C6_decrypt_single_error_type_witness :
    decrypt_payload envJsonBoom =
      .error (.valueError ("Decryption failed: " ++ "boom")) :=
  (C6_decrypt_single_error_type envJsonBoom).2 "plain" "boom" rfl rfl rfl rfl
    rfl rfl

/-! ## Hex-string lemmas for C7 -/

theorem hexDigit_ne (c d : Char) (hc : specHexDigit c = true)
    (hd : specHexDigit d = false) : (c == d) = false := by
  cases hb : c == d with
  | false => rfl
  | true =>
      have hcd : c = d := eq_of_beq hb
      rw [hcd, hd] at hc
      exact absurd hc (by decide)

theorem hex_not_ws (c : Char) (hc : specHexDigit c = true) :
    isPyWs c = false := by
  unfold isPyWs
  rw [hexDigit_ne c ' ' hc (by decide), hexDigit_ne c '\t' hc (by decide),
    hexDigit_ne c '\n' hc (by decide), hexDigit_ne c '\r' hc (by decide),
    hexDigit_ne c '\x0b' hc (by decide), hexDigit_ne c '\x0c' hc (by decide)]
  rfl

theorem hex_dropWhile (cs : List Char)
    (h : ∀ c ∈ cs, specHexDigit c = true) : cs.dropWhile isPyWs = cs := by
  cases cs with
  | nil => rfl
  | cons c rest =>
      have hw := hex_not_ws c (h c (by simp))
      simp [List.dropWhile_cons, hw]

theorem hex_stripWs (cs : List Char)
    (h : ∀ c ∈ cs, specHexDigit c = true) : stripWs cs = cs := by
  unfold stripWs
  rw [hex_dropWhile cs h,
    hex_dropWhile cs.reverse (fun c hc => h c (List.mem_reverse.mp hc)),
    List.reverse_reverse]

theorem hex_digVal16_isSome (c : Char) (hc : specHexDigit c = true) :
    ∃ v, digVal16 c = some v := by
  unfold specHexDigit at hc
  cases hd : c.isDigit with
  | true => exact ⟨c.toNat - 48, by simp [digVal16, hd]⟩
  | false =>
    cases h1 : ('a' ≤ c && c ≤ 'f') with
    | true => exact ⟨c.toNat - 87, by simp [digVal16, hd, h1]⟩
    | false =>
      rw [hd, h1] at hc
      simp only [Bool.false_or] at hc
      exact ⟨c.toNat - 55, by simp [digVal16, hd, h1, hc]⟩

theorem hex_digitsCore (cs : List Char) : ∀ acc : Nat,
    (∀ c ∈ cs, specHexDigit c = true) →
    ∃ v, digitsCore digVal16 16 cs acc false = some v := by
  induction cs with
  | nil => exact fun acc _ => ⟨acc, rfl⟩
  | cons c rest ih =>
      intro acc h
      have hc := h c (by simp)
      have hu : (c == '_') = false := hexDigit_ne c '_' hc (by decide)
      obtain ⟨v, hv⟩ := hex_digVal16_isSome c hc
      obtain ⟨w, hw⟩ := ih (acc * 16 + v) (fun x hx => h x (by simp [hx]))
      refine ⟨w, ?_⟩
      simp only [digitsCore, hu, hv]
      exact hw

theorem hex_entryDigits (cs : List Char) (hne : cs ≠ [])
    (h : ∀ c ∈ cs, specHexDigit c = true) :
    ∃ v, entryDigits digVal16 16 cs = some v := by
  cases cs with
  | nil => exact absurd rfl hne
  | cons c rest =>
      have hc := h c (by simp)
      obtain ⟨v, hv⟩ := hex_digVal16_isSome c hc
      obtain ⟨w, hw⟩ := hex_digitsCore rest v (fun x hx => h x (by simp [hx]))
      exact ⟨w, by simp [entryDigits, hv, hw]⟩

theorem hex_hexBody (cs : List Char) (hne : cs ≠ [])
    (h : ∀ c ∈ cs, specHexDigit c = true) : ∃ v, hexBody cs = some v := by
  cases cs with
  | nil => exact absurd rfl hne
  | cons c0 rest0 =>
    cases rest0 with
    | nil =>
        obtain ⟨v, hv⟩ := hex_entryDigits [c0] (by simp) h
        exact ⟨v, hv⟩
    | cons c1 rest =>
        have h1 := h c1 (by simp)
        have hx : (c1 == 'x') = false := hexDigit_ne c1 'x' h1 (by decide)
        have hX : (c1 == 'X') = false := hexDigit_ne c1 'X' h1 (by decide)
        obtain ⟨v, hv⟩ := hex_entryDigits (c0 :: c1 :: rest) (by simp) h
        exact ⟨v, by simp [hexBody, hx, hX, hv]⟩

theorem hex_pyInt16 (s : String) (hne : s.data ≠ [])
    (h : ∀ c ∈ s.data, specHexDigit c = true) : ∃ v, pyInt16 s = some v := by
  unfold pyInt16
  rw [hex_stripWs s.data h]
  cases hd : s.data with
  | nil => exact absurd hd hne
  | cons c rest =>
      have h' : ∀ x ∈ c :: rest, specHexDigit x = true := hd ▸ h
      have hc := h' c (by simp)
      have hplus : (c == '+') = false := hexDigit_ne c '+' hc (by decide)
      have hminus : (c == '-') = false := hexDigit_ne c '-' hc (by decide)
      obtain ⟨v, hv⟩ := hex_hexBody (c :: rest) (by simp) h'
      exact ⟨Int.ofNat v, by simp [signedBody, hplus, hminus, hv]⟩

/-- C7, counterexample.  `fpPlus` is 64 characters whose first character `+`
is not a hexadecimal digit, yet `validate_fingerprint` accepts it, because
Python's `int(s, 16)` tolerates a sign. -/
theorem C7_fingerprint_nonhex_accepted_counterexample :
    validate_fingerprint fpPlus = true ∧ spec_fingerprint_ok fpPlus = false :=
  ⟨by decide, by decide⟩

/-- C7, amended.  `validate_fingerprint` accepts exactly the 64-character
strings that Python's `int(s, 16)` parses — every string of 64 hexadecimal
digits is accepted, but so are some 64-character strings containing
non-hex-digit characters (a sign, whitespace, a `0x` prefix or grouping
underscores); every string of another length yields false. -/
theorem C7_validate_fingerprint_correct (s : String) :
    (validate_fingerprint s = true ↔
      s.length = 64 ∧ (pyInt16 s).isSome = true) ∧
    (spec_fingerprint_ok s = true → validate_fingerprint s = true) := by
  constructor
  · by_cases h0 : s = ""
    · subst h0
      simp [validate_fingerprint]
    · by_cases hl : s.length = 64
      · simp [validate_fingerprint, h0, hl]
      · simp [validate_fingerprint, h0, hl]
  · intro hsp
    unfold spec_fingerprint_ok at hsp
    simp only [Bool.and_eq_true, beq_iff_eq, List.all_eq_true] at hsp
    obtain ⟨hlen, hall⟩ := hsp
    have hall' : ∀ c ∈ s.data, specHexDigit c = true := fun c hc => hall c hc
    have hne : s.data ≠ [] := by
      intro h0
      rw [show s.length = s.data.length from rfl, h0] at hlen
      simp at hlen
    obtain ⟨v, hv⟩ := hex_pyInt16 s hne hall'
    have hs0 : ¬ s = "" := by
      intro h0
      subst h0
      simp at hlen
    simp [validate_fingerprint, hs0, hlen, hv]

/-- C7, witness for the amended theorem: the all-`a` fingerprint is accepted
through the spec-side characterization. -/
theorem C7_validate_fingerprint_correct_witness :
    validate_fingerprint fpA = true :=
  (C7_validate_fingerprint_correct fpA).2 (by decide)

/-- C8, counterexample (against the spec-modelled endpoint).  `fpPlus` is not
a string of 64 hexadecimal characters, yet the endpoint issues a challenge
for it and stores it in the registry, because `validate_fingerprint` accepts
it. -/
theorem C8_nonhex_fingerprint_issued_counterexample :
    spec_fingerprint_ok fpPlus = false ∧
    (secure_token_endpoint fpPlus "9.9.9.9" "tk" 50 []).1 =
      .issued "tk" ⟨"tk:" ++ fpPlus ++ ":50", "0000", 4⟩ 650 ∧
    lookupTok (secure_token_endpoint fpPlus "9.9.9.9" "tk" 50 []).2 "tk" =
      some ⟨fpPlus, "9.9.9.9", 50, 650,
        ⟨"tk:" ++ fpPlus ++ ":50", "0000", 4⟩, false⟩ :=
  ⟨by decide, by decide, by decide⟩

/-- C8, amended.  The token-issuing endpoint rejects with 400 — issuing no
challenge and leaving the registry unchanged — exactly the fingerprints that
fail the repository's `validate_fingerprint` (wrong length, or not parseable
by Python's `int(s, 16)`); this is weaker than rejecting everything that is
not 64 hexadecimal digits. -/
theorem C8_secure_token_rejects_invalid
    (fp ip tok : String) (now : Nat) (st : Registry)
    (h : validate_fingerprint fp = false) :
    secure_token_endpoint fp ip tok now st = (.badRequest, st) := by
  simp [secure_token_endpoint, h]

/-- C8, witness: a 63-character fingerprint is rejected with nothing
stored. -/
theorem C8_secure_token_rejects_invalid_witness :
    secure_token_endpoint fpShort "9.9.9.9" "tk" 50 [] = (.badRequest, []) :=
  C8_secure_token_rejects_invalid fpShort "9.9.9.9" "tk" 50 [] (by decide)

/-- C9.  `verify_security_token` never flips a `used` flag: every challenge
still stored after the call has its `used` flag unchanged, and the registry
either stays identical or loses exactly the looked-up entry when that entry
is past its `expires_at`. -/
theorem C9_verify_token_frame (st : Registry) (tok fp : String) (now : Nat) :
    ((verify_security_token tok fp now st).2 = st ∨
      ∃ td, lookupTok st tok = some td ∧ now > td.expires_at ∧
        (verify_security_token tok fp now st).2 = eraseTok st tok) ∧
    (∀ t td', lookupTok (verify_security_token tok fp now st).2 t = some td' →
      ∃ td, lookupTok st t = some td ∧ td'.used = td.used) := by
  cases hl : lookupTok st tok with
  | none =>
    have hv : (verify_security_token tok fp now st).2 = st := by
      simp [verify_security_token, hl]
    refine ⟨Or.inl hv, ?_⟩
    intro t td' h'
    rw [hv] at h'
    exact ⟨td', h', rfl⟩
  | some td =>
    by_cases hx : now > td.expires_at
    · have hv : (verify_security_token tok fp now st).2 = eraseTok st tok := by
        simp [verify_security_token, hl, hx]
      refine ⟨Or.inr ⟨td, rfl, hx, hv⟩, ?_⟩
      intro t td' h'
      rw [hv, lookupTok_eraseTok] at h'
      by_cases ht : t = tok
      · rw [if_pos ht] at h'
        exact absurd h' (by simp)
      · rw [if_neg ht] at h'
        exact ⟨td', h', rfl⟩
    · have hv : (verify_security_token tok fp now st).2 = st := by
        simp only [verify_security_token, hl]
        rw [if_neg hx]
        split
        · rfl
        · split <;> rfl
      refine ⟨Or.inl hv, ?_⟩
      intro t td' h'
      rw [hv] at h'
      exact ⟨td', h', rfl⟩

/-- C9, witness: on the fresh registry `powSt0` the gate leaves the stored
challenge's `used` flag untouched. -/
theorem C9_verify_token_frame_witness :
    ∃ td, lookupTok powSt0 "t" = some td ∧ powTd0.used = td.used :=
  (C9_verify_token_frame powSt0 "t" fpA 10).2 "t" powTd0 (by decide)

/-- C10.  `check_rate_limit` fails open: it returns false (denies) only when
the cleanup succeeded and the count query succeeded with a truthy count at or
over the limit; any failure of the cleanup, count, or insert operation makes
it return true (the request is allowed), and the embedding is a total
function — nothing is raised to the caller. -/
theorem C10_rate_limit_fails_open (db : RateLimitDb) (max_requests : Int) :
    (check_rate_limit db max_requests = false ↔
      db.cleanupRes = .ok () ∧ ∃ cnt, db.countRes = .ok cnt ∧
        cnt ≠ 0 ∧ cnt ≥ max_requests) ∧
    (∀ e, db.cleanupRes = .error e →
      check_rate_limit db max_requests = true) ∧
    (∀ e, db.countRes = .error e →
      check_rate_limit db max_requests = true) ∧
    (∀ e cnt, db.cleanupRes = .ok () → db.countRes = .ok cnt →
      ¬(cnt ≠ 0 ∧ cnt ≥ max_requests) → db.insertRes = .error e →
      check_rate_limit db max_requests = true) := by
  obtain ⟨c1, c2, c3⟩ := db
  refine ⟨?_, ?_, ?_, ?_⟩
  · cases c1 with
    | error e => simp [check_rate_limit]
    | ok u =>
      cases u
      cases c2 with
      | error e => simp [check_rate_limit]
      | ok cnt =>
        by_cases hc : cnt ≠ 0 ∧ cnt ≥ max_requests
        · constructor
          · intro _
            exact ⟨rfl, cnt, rfl, hc⟩
          · intro _
            simp [check_rate_limit, hc]
        · constructor
          · intro hfalse
            exfalso
            cases c3 with
            | error e => simp [check_rate_limit, hc] at hfalse
            | ok u3 => simp [check_rate_limit, hc] at hfalse
          · rintro ⟨_, cnt', hceq, hne, hge⟩
            injection hceq with hcc
            subst hcc
            exact absurd ⟨hne, hge⟩ hc
  · intro e he
    subst he
    rfl
  · intro e he
    subst he
    cases c1 with
    | error e1 => rfl
    | ok u => rfl
  · intro e cnt hc1 hc2 hnc he
    subst hc1
    subst hc2
    subst he
    simp [check_rate_limit, hnc]

/-- C10, witness: an unreachable backend yields an allow; a genuine
at-the-limit count yields a deny. -/
theorem C10_rate_limit_fails_open_witness :
    check_rate_limit rlDbDown 5 = true ∧ check_rate_limit rlDbDeny 5 = false :=
  ⟨(C10_rate_limit_fails_open rlDbDown 5).2.1 "connection refused" rfl,
   (C10_rate_limit_fails_open rlDbDeny 5).1.mpr
     ⟨rfl, 5, rfl, by decide, by decide⟩⟩

end BetterBliss
